import Mathlib

/-!
Shallow embedding of the pricing/costing engine of the vendas repository
(the precificacao app: precificacao/models.py, precificacao/services/pricing.py
and the quote-total computation of precificacao/views.py).

Python Decimal values are modelled as exact rationals.  pricing.py quantizes
explicitly with ROUND_HALF_UP (ties away from zero), modelled by roundHalfUp
below; the quantize calls of models.py and views.py pass no rounding mode and
therefore use the Decimal context default ROUND_HALF_EVEN (ties to even),
modelled by roundHalfEven below.  The Django get_or_create calls of
preco_sugerido resolve the organization context; in the embedding the resolved
ParametrosGlobais and TabelaHora records are explicit arguments.
-/

namespace Precificacao

/-- Rounding of a rational to the nearest integer with ties going away from
zero: the behaviour of Decimal ROUND_HALF_UP. -/
def roundHalfUp (x : ℚ) : ℤ :=
  if 0 ≤ x then ⌊x + 1 / 2⌋ else -⌊-x + 1 / 2⌋

/-- Embedding of the quantize helper of pricing.py (TWO = 2 decimal places,
FOUR = 4 decimal places), half-up rounding. -/
def _q (x : ℚ) (places : ℕ := 2) : ℚ :=
  (roundHalfUp (x * 10 ^ places) : ℚ) / 10 ^ places

/-- Embedding of arredondar from pricing.py: snap valor to multiples of passo
with half-up rounding and quantize to 2 decimals, falling back to plain
2-decimal quantization when passo is zero (falsy) or not positive. -/
def _arredondar (valor passo : ℚ) : ℚ :=
  if passo ≤ 0 then _q valor
  else _q ((roundHalfUp (valor / passo) : ℚ) * passo)

/-- Rounding of a rational to the nearest integer with ties to the even
neighbour: the behaviour of Decimal ROUND_HALF_EVEN, the context default that
applies to every quantize call which passes no rounding mode. -/
def roundHalfEven (x : ℚ) : ℤ :=
  if x - (⌊x⌋ : ℚ) = 1 / 2 ∧ ⌊x + 1 / 2⌋ % 2 ≠ 0 then ⌊x + 1 / 2⌋ - 1
  else ⌊x + 1 / 2⌋

/-- Decimal.quantize with the default context rounding (ROUND_HALF_EVEN), as
performed by the quantize calls of models.py (lines 68, 73, 78, 81, 84, 137
and 208) and by the quote-total quantize of views.py line 263, none of which
passes a rounding mode. -/
def quantize_he (x : ℚ) (places : ℕ) : ℚ :=
  (roundHalfEven (x * 10 ^ places) : ℚ) / 10 ^ places

/-- Measurement units (models.py, class Unidade). -/
inductive Unidade
  | UN | FOLHA | RESMA | ML | L | G | KG | M | M2 | CX
deriving DecidableEq

/-- Raw material record (models.py, class MateriaPrima); only the fields read
by the costing engine are kept. -/
structure MateriaPrima where
  unidade_compra : Unidade
  quantidade_compra : ℚ
  custo_compra : ℚ
  unidade_base : Unidade
  fator_conversao_para_base : ℚ
  perda_percentual : ℚ

/-- Derived cost per base unit (models.py, MateriaPrima.custo_unitario_base);
the quantize on line 137 passes no rounding mode, hence half-even. -/
def MateriaPrima.custo_unitario_base (mp : MateriaPrima) : ℚ :=
  let qty_base :=
    if mp.unidade_compra ≠ mp.unidade_base then
      mp.quantidade_compra * mp.fator_conversao_para_base
    else mp.quantidade_compra
  if qty_base = 0 then 0 else quantize_he (mp.custo_compra / qty_base) 4

/-- Per-organization cost and markup parameters (models.py, ParametrosGlobais). -/
structure ParametrosGlobais where
  margem_lucro_padrao : ℚ
  acrescimo_padrao_percentual : ℚ
  desconto_max_percentual : ℚ
  impostos_percentual_sobre_venda : ℚ
  taxa_cartao_percentual : ℚ
  custo_energia_mensal : ℚ
  custo_internet_mensal : ℚ
  outros_custos_fixos_mensais : ℚ
  custo_tinta_por_percentual : ℚ
  arredondar_para : ℚ
  incluir_taxas_no_preco_base : Bool

/-- Labor rate table (models.py, TabelaHora). -/
structure TabelaHora where
  renda_mensal_desejada : ℚ
  dias_trabalho_mes : ℕ
  horas_por_dia : ℚ

/-- Monthly working hours (models.py, TabelaHora.horas_mes); the quantize on
line 68 passes no rounding mode, hence half-even. -/
def TabelaHora.horas_mes (t : TabelaHora) : ℚ :=
  quantize_he ((t.dias_trabalho_mes : ℚ) * t.horas_por_dia) 4

/-- Hourly labor rate (models.py, TabelaHora.mao_de_obra_hora); a zero (falsy)
horas_mes is replaced by 1; the quantize on line 73 is half-even. -/
def TabelaHora.mao_de_obra_hora (t : TabelaHora) (_parametros : ParametrosGlobais) : ℚ :=
  let h_mes := if t.horas_mes = 0 then 1 else t.horas_mes
  quantize_he (t.renda_mensal_desejada / h_mes) 4

/-- Hourly pro-rated fixed costs (models.py, TabelaHora.fixos_hora); the
quantize on line 78 is half-even. -/
def TabelaHora.fixos_hora (t : TabelaHora) (parametros : ParametrosGlobais) : ℚ :=
  let fixos := parametros.custo_energia_mensal + parametros.custo_internet_mensal +
    parametros.outros_custos_fixos_mensais
  let h_mes := if t.horas_mes = 0 then 1 else t.horas_mes
  quantize_he (fixos / h_mes) 4

/-- Blended hourly rate (models.py, TabelaHora.custo_hora_total); the quantize
on line 81 is half-even. -/
def TabelaHora.custo_hora_total (t : TabelaHora) (parametros : ParametrosGlobais) : ℚ :=
  quantize_he (t.mao_de_obra_hora parametros + t.fixos_hora parametros) 4

/-- Blended per-minute rate (models.py, TabelaHora.custo_minuto_total); the
quantize on line 84 is half-even. -/
def TabelaHora.custo_minuto_total (t : TabelaHora) (parametros : ParametrosGlobais) : ℚ :=
  quantize_he (t.custo_hora_total parametros / 60) 4

/-- Product component (models.py, ComponenteProduto). -/
structure ComponenteProduto where
  materia_prima : MateriaPrima
  quantidade_uso : ℚ
  perda_percentual : ℚ

/-- Product record (models.py, Produto); only the fields read by the costing
engine are kept, with its owned component list inlined. -/
structure Produto where
  tempo_producao_minutos : ℕ
  usa_percentual_tinta : Bool
  percentual_tinta : ℚ
  margem_lucro_override : Option ℚ
  componentes : List ComponenteProduto

/-- The value object returned by the pipeline (pricing.py, class Breakdown). -/
structure Breakdown where
  materiais : ℚ
  mao_de_obra : ℚ
  tinta : ℚ
  custo_total : ℚ
  margem_percentual : ℚ
  preco_sem_taxas : ℚ
  impostos : ℚ
  taxa_cartao : ℚ
  acrescimo_padrao : ℚ
  preco_final : ℚ

/-- Material cost of a product (pricing.py, custo_materiais). -/
def custo_materiais (produto : Produto) : ℚ :=
  _q (produto.componentes.foldl
    (fun total comp =>
      total + comp.materia_prima.custo_unitario_base *
        (comp.quantidade_uso * (1 + comp.perda_percentual / 100))) 0) 4

/-- Labor cost of a product (pricing.py, custo_mao_de_obra). -/
def custo_mao_de_obra (produto : Produto) (parametros : ParametrosGlobais)
    (tabela : TabelaHora) : ℚ :=
  _q (tabela.custo_minuto_total parametros * (produto.tempo_producao_minutos : ℚ)) 4

/-- Ink cost by coverage percentage (pricing.py, custo_tinta_percentual). -/
def custo_tinta_percentual (produto : Produto) (parametros : ParametrosGlobais) : ℚ :=
  if !produto.usa_percentual_tinta then 0
  else _q ((produto.percentual_tinta / 100) * parametros.custo_tinta_por_percentual) 4

/-- The price derivation pipeline (pricing.py, preco_sugerido).  The Django
get_or_create of the organization context is resolved outside the embedding:
parametros and tabela are the records obtained (or created) for empresa. -/
def preco_sugerido (produto : Produto) (parametros : ParametrosGlobais)
    (tabela : TabelaHora) : Breakdown :=
  let materiais := custo_materiais produto
  let mo := custo_mao_de_obra produto parametros tabela
  let tinta := custo_tinta_percentual produto parametros
  let custo_total := _q (materiais + mo + tinta) 4
  let margem := produto.margem_lucro_override.getD parametros.margem_lucro_padrao
  let preco_sem_taxas := _q (custo_total * (1 + margem / 100)) 4
  let impostos := _q (preco_sem_taxas * (parametros.impostos_percentual_sobre_venda / 100)) 4
  let com_impostos := _q (preco_sem_taxas + impostos) 4
  let taxa_cartao := _q (com_impostos * (parametros.taxa_cartao_percentual / 100)) 4
  let com_taxas := _q (com_impostos + taxa_cartao) 4
  let acrescimo_padrao := _q (com_taxas * (parametros.acrescimo_padrao_percentual / 100)) 4
  let bruto := _q (com_taxas + acrescimo_padrao) 4
  let final := _arredondar bruto parametros.arredondar_para
  { materiais := _q materiais
    mao_de_obra := _q mo
    tinta := _q tinta
    custo_total := _q custo_total
    margem_percentual := _q margem
    preco_sem_taxas := _q preco_sem_taxas
    impostos := _q impostos
    taxa_cartao := _q taxa_cartao
    acrescimo_padrao := _q acrescimo_padrao
    preco_final := _q final }

/-- Quote line (models.py, ItemOrcamento): quantity and the frozen unit
price snapshot. -/
structure ItemOrcamento where
  quantidade : ℚ
  preco_unitario : ℚ

/-- Line subtotal (models.py, ItemOrcamento.subtotal); the quantize on line
208 passes no rounding mode, hence half-even. -/
def ItemOrcamento.subtotal (it : ItemOrcamento) : ℚ :=
  quantize_he (it.quantidade * it.preco_unitario) 2

/-- Quote total as computed in views.py, orcamento_create: sum of line
subtotals, then the discount factor (when the percent is nonzero), then the
surcharge factor (when nonzero), quantized to 2 decimals; the final quantize
on line 263 passes no rounding mode, hence half-even. -/
def orcamento_valor_total (itens : List ItemOrcamento)
    (desconto_percentual acrescimo_percentual : ℚ) : ℚ :=
  let total := itens.foldl (fun acc it => acc + it.subtotal) 0
  let total := if desconto_percentual ≠ 0 then
    total * (1 - desconto_percentual / 100) else total
  let total := if acrescimo_percentual ≠ 0 then
    total * (1 + acrescimo_percentual / 100) else total
  quantize_he total 2

/-- One cascading percentage step of the pipeline: add pct percent of the
running value, quantizing as the source does. -/
def step (v pct : ℚ) : ℚ :=
  _q (v + _q (v * (pct / 100)) 4) 4

/-- The tail of preco_sugerido from the total cost on: margin, tax, card fee,
standard surcharge, then increment rounding (pricing.py lines 88-99). -/
def cascadeFinal (custo_total margem ipct cpct apct passo : ℚ) : ℚ :=
  _arredondar
    (step (step (step (_q (custo_total * (1 + margem / 100)) 4) ipct) cpct) apct) passo

/-- Total cost basis of a product in its organization context
(pricing.py line 85). -/
def custo_total_de (produto : Produto) (parametros : ParametrosGlobais)
    (tabela : TabelaHora) : ℚ :=
  _q (custo_materiais produto + custo_mao_de_obra produto parametros tabela +
    custo_tinta_percentual produto parametros) 4

/-- Effective margin of a product: its override when present, else the
organization default (pricing.py line 87). -/
def margem_de (produto : Produto) (parametros : ParametrosGlobais) : ℚ :=
  produto.margem_lucro_override.getD parametros.margem_lucro_padrao

/-- Running total after the margin step (pricing.py line 88). -/
def preco_sem_taxas_de (produto : Produto) (parametros : ParametrosGlobais)
    (tabela : TabelaHora) : ℚ :=
  _q (custo_total_de produto parametros tabela *
    (1 + margem_de produto parametros / 100)) 4

/-- Running total after the sales-tax step (pricing.py lines 90-91). -/
def com_impostos_de (produto : Produto) (parametros : ParametrosGlobais)
    (tabela : TabelaHora) : ℚ :=
  step (preco_sem_taxas_de produto parametros tabela)
    parametros.impostos_percentual_sobre_venda

/-- Running total after the card-fee step (pricing.py lines 93-94). -/
def com_taxas_de (produto : Produto) (parametros : ParametrosGlobais)
    (tabela : TabelaHora) : ℚ :=
  step (com_impostos_de produto parametros tabela) parametros.taxa_cartao_percentual

/-- Gross price after the standard-surcharge step (pricing.py lines 96-97). -/
def bruto_de (produto : Produto) (parametros : ParametrosGlobais)
    (tabela : TabelaHora) : ℚ :=
  step (com_taxas_de produto parametros tabela) parametros.acrescimo_padrao_percentual

/-- All numeric fields of a material are nonnegative. -/
def MateriaPrima.Nonneg (mp : MateriaPrima) : Prop :=
  0 ≤ mp.quantidade_compra ∧ 0 ≤ mp.custo_compra ∧
  0 ≤ mp.fator_conversao_para_base ∧ 0 ≤ mp.perda_percentual

/-- All numeric fields of a component (and of its material) are nonnegative. -/
def ComponenteProduto.Nonneg (c : ComponenteProduto) : Prop :=
  c.materia_prima.Nonneg ∧ 0 ≤ c.quantidade_uso ∧ 0 ≤ c.perda_percentual

/-- All numeric fields of a product (and of its components) are nonnegative. -/
def Produto.Nonneg (p : Produto) : Prop :=
  (∀ c ∈ p.componentes, c.Nonneg) ∧ 0 ≤ p.percentual_tinta ∧
  (∀ m, p.margem_lucro_override = some m → 0 ≤ m)

/-- All numeric fields of the global parameters are nonnegative. -/
def ParametrosGlobais.Nonneg (p : ParametrosGlobais) : Prop :=
  0 ≤ p.margem_lucro_padrao ∧ 0 ≤ p.acrescimo_padrao_percentual ∧
  0 ≤ p.desconto_max_percentual ∧ 0 ≤ p.impostos_percentual_sobre_venda ∧
  0 ≤ p.taxa_cartao_percentual ∧ 0 ≤ p.custo_energia_mensal ∧
  0 ≤ p.custo_internet_mensal ∧ 0 ≤ p.outros_custos_fixos_mensais ∧
  0 ≤ p.custo_tinta_por_percentual

/-- All numeric fields of the labor table are nonnegative. -/
def TabelaHora.Nonneg (t : TabelaHora) : Prop :=
  0 ≤ t.renda_mensal_desejada ∧ 0 ≤ t.horas_por_dia

/-- Replace the material-level wastage percent of a material. -/
def setPerdaMP (mp : MateriaPrima) (x : ℚ) : MateriaPrima :=
  { mp with perda_percentual := x }

/-- Replace the material-level wastage percent inside a component, leaving the
component-level wastage and every other field untouched. -/
def setPerdaComponente (c : ComponenteProduto) (x : ℚ) : ComponenteProduto :=
  { c with materia_prima := setPerdaMP c.materia_prima x }

/-- Replace the material-level wastage percent of the i-th component. -/
def setPerdaAt : List ComponenteProduto → ℕ → ℚ → List ComponenteProduto
  | [], _, _ => []
  | c :: cs, 0, x => setPerdaComponente c x :: cs
  | c :: cs, n + 1, x => c :: setPerdaAt cs n x

/-- State identical to produto except that the i-th component's raw material
carries a different material-level wastage percent. -/
def setPerdaMaterial (p : Produto) (i : ℕ) (x : ℚ) : Produto :=
  { p with componentes := setPerdaAt p.componentes i x }

/-- Concrete material with a negative conversion denominator: bought in one
unit, used in another, with conversion factor -1. -/
def mpNeg : MateriaPrima :=
  { unidade_compra := Unidade.UN
    quantidade_compra := 1
    custo_compra := 5
    unidade_base := Unidade.FOLHA
    fator_conversao_para_base := -1
    perda_percentual := 0 }

/-- Concrete material bought and used in the same unit: 32 units for 1.00,
whose exact unit cost 0.03125 ties at the fourth decimal place. -/
def mpHalf : MateriaPrima :=
  { unidade_compra := Unidade.UN
    quantidade_compra := 32
    custo_compra := 1
    unidade_base := Unidade.UN
    fator_conversao_para_base := 1
    perda_percentual := 0 }

/-- Concrete product with no components, no production time, no ink cost. -/
def produto0 : Produto :=
  { tempo_producao_minutos := 0
    usa_percentual_tinta := false
    percentual_tinta := 0
    margem_lucro_override := none
    componentes := [] }

/-- Concrete product with 10 minutes of production time and nothing else. -/
def produto10 : Produto :=
  { tempo_producao_minutos := 10
    usa_percentual_tinta := false
    percentual_tinta := 0
    margem_lucro_override := none
    componentes := [] }

/-- Concrete parameter set: default margin 30, everything else zero,
rounding increment 1. -/
def par0 : ParametrosGlobais :=
  { margem_lucro_padrao := 30
    acrescimo_padrao_percentual := 0
    desconto_max_percentual := 15
    impostos_percentual_sobre_venda := 0
    taxa_cartao_percentual := 0
    custo_energia_mensal := 0
    custo_internet_mensal := 0
    outros_custos_fixos_mensais := 0
    custo_tinta_por_percentual := 0
    arredondar_para := 1
    incluir_taxas_no_preco_base := true }

/-- Concrete labor table with the documented defaults. -/
def tab0 : TabelaHora :=
  { renda_mensal_desejada := 3000
    dias_trabalho_mes := 22
    horas_por_dia := 8 }

/-- Concrete labor table with zero working days, hence zero monthly hours. -/
def tabZeroHoras : TabelaHora :=
  { renda_mensal_desejada := 3000
    dias_trabalho_mes := 0
    horas_por_dia := 8 }

theorem roundHalfUp_eq_of_abs_lt (n : ℤ) (x : ℚ) (h : |x - (n : ℚ)| < 1 / 2) :
    roundHalfUp x = n := by
  rw [abs_sub_lt_iff] at h
  obtain ⟨h1, h2⟩ := h
  unfold roundHalfUp
  split
  · rw [Int.floor_eq_iff]
    constructor
    · linarith
    · linarith [Int.cast_one (R := ℚ)]
  · rw [neg_eq_iff_eq_neg, Int.floor_eq_iff]
    constructor
    · push_cast
      linarith
    · push_cast
      linarith


theorem roundHalfUp_intCast (n : ℤ) : roundHalfUp (n : ℚ) = n := by
  apply roundHalfUp_eq_of_abs_lt
  simp

theorem abs_roundHalfUp_sub_le (x : ℚ) : |(roundHalfUp x : ℚ) - x| ≤ 1 / 2 := by
  unfold roundHalfUp
  split
  · have h1 := Int.floor_le (x + 1 / 2)
    have h2 := Int.lt_floor_add_one (x + 1 / 2)
    rw [abs_le]
    push_cast at h2 ⊢
    constructor <;> linarith
  · have h1 := Int.floor_le (-x + 1 / 2)
    have h2 := Int.lt_floor_add_one (-x + 1 / 2)
    rw [abs_le]
    push_cast at h2 ⊢
    constructor <;> linarith

theorem roundHalfUp_mono {x y : ℚ} (h : x ≤ y) : roundHalfUp x ≤ roundHalfUp y := by
  unfold roundHalfUp
  split <;> split
  · exact Int.floor_mono (by linarith)
  · rename_i hx hy
    exact absurd (le_trans hx h) hy
  · rename_i hx hy
    have h1 : (0 : ℤ) ≤ ⌊y + 1 / 2⌋ := Int.floor_nonneg.mpr (by linarith)
    have h2 : (0 : ℤ) ≤ ⌊-x + 1 / 2⌋ := Int.floor_nonneg.mpr (by push_neg at hx; linarith)
    omega
  · have : ⌊-y + 1 / 2⌋ ≤ ⌊-x + 1 / 2⌋ := Int.floor_mono (by linarith)
    omega

theorem roundHalfUp_nonneg {x : ℚ} (h : 0 ≤ x) : 0 ≤ roundHalfUp x := by
  unfold roundHalfUp
  rw [if_pos h]
  exact Int.floor_nonneg.mpr (by linarith)

theorem ten_pow_pos (d : ℕ) : (0 : ℚ) < 10 ^ d := by positivity

theorem floor_add_half_intCast (n : ℤ) : ⌊(n : ℚ) + 1 / 2⌋ = n := by
  rw [Int.floor_eq_iff]
  constructor
  · linarith
  · linarith [Int.cast_one (R := ℚ)]

theorem roundHalfEven_intCast (n : ℤ) : roundHalfEven (n : ℚ) = n := by
  unfold roundHalfEven
  rw [if_neg, floor_add_half_intCast]
  rintro ⟨h1, _⟩
  rw [Int.floor_intCast] at h1
  norm_num at h1

theorem roundHalfEven_nonneg {x : ℚ} (h : 0 ≤ x) : 0 ≤ roundHalfEven x := by
  have hn : (0 : ℤ) ≤ ⌊x + 1 / 2⌋ := Int.floor_nonneg.mpr (by linarith)
  unfold roundHalfEven
  split
  · rename_i hc
    obtain ⟨_, h2⟩ := hc
    omega
  · exact hn

theorem _q_nonneg {x : ℚ} (d : ℕ) (h : 0 ≤ x) : 0 ≤ _q x d := by
  unfold _q
  apply div_nonneg _ (ten_pow_pos d).le
  exact_mod_cast roundHalfUp_nonneg (mul_nonneg h (ten_pow_pos d).le)

theorem _q_mono {x y : ℚ} (d : ℕ) (h : x ≤ y) : _q x d ≤ _q y d := by
  unfold _q
  apply div_le_div_of_nonneg_right ?_ (ten_pow_pos d).le
  exact_mod_cast roundHalfUp_mono (mul_le_mul_of_nonneg_right h (ten_pow_pos d).le)

theorem _q_intCast_div (k : ℤ) (d : ℕ) : _q ((k : ℚ) / 10 ^ d) d = (k : ℚ) / 10 ^ d := by
  unfold _q
  rw [div_mul_cancel₀ _ (ten_pow_pos d).ne.symm, roundHalfUp_intCast]

theorem _q_exists_int (x : ℚ) (d : ℕ) : ∃ k : ℤ, _q x d = (k : ℚ) / 10 ^ d :=
  ⟨roundHalfUp (x * 10 ^ d), rfl⟩

theorem _q_eq_of_abs_lt (k : ℤ) (x : ℚ) (d : ℕ)
    (h : |x - (k : ℚ) / 10 ^ d| < 1 / (2 * 10 ^ d)) : _q x d = (k : ℚ) / 10 ^ d := by
  unfold _q
  rw [roundHalfUp_eq_of_abs_lt k (x * 10 ^ d)]
  have h10 := ten_pow_pos d
  calc |x * 10 ^ d - (k : ℚ)| = |x - (k : ℚ) / 10 ^ d| * 10 ^ d := by
        rw [← abs_of_pos h10, ← abs_mul]
        congr 1
        field_simp
    _ < (1 / (2 * 10 ^ d)) * 10 ^ d := by
        exact mul_lt_mul_of_pos_right h h10
    _ = 1 / 2 := by
        field_simp
        ring

theorem abs_q_sub_le (x : ℚ) (d : ℕ) : |_q x d - x| ≤ 1 / (2 * 10 ^ d) := by
  have h10 := ten_pow_pos d
  have h := abs_roundHalfUp_sub_le (x * 10 ^ d)
  unfold _q
  calc |(roundHalfUp (x * 10 ^ d) : ℚ) / 10 ^ d - x|
      = |(roundHalfUp (x * 10 ^ d) : ℚ) - x * 10 ^ d| / 10 ^ d := by
        rw [← abs_of_pos h10, ← abs_div]
        congr 1
        field_simp
        ring
    _ ≤ (1 / 2) / 10 ^ d := by
        exact div_le_div_of_nonneg_right h h10.le
    _ = 1 / (2 * 10 ^ d) := by ring

theorem _q_eq_of_mul_eq_int (x : ℚ) (d : ℕ) (k : ℤ) (h : x * 10 ^ d = (k : ℚ)) :
    _q x d = (k : ℚ) / 10 ^ d := by
  unfold _q
  rw [h, roundHalfUp_intCast]

theorem _q_zero (d : ℕ) : _q 0 d = 0 := by
  have := _q_eq_of_mul_eq_int 0 d 0 (by push_cast; ring)
  simpa using this

theorem quantize_he_nonneg {x : ℚ} (d : ℕ) (h : 0 ≤ x) : 0 ≤ quantize_he x d := by
  unfold quantize_he
  apply div_nonneg _ (ten_pow_pos d).le
  exact_mod_cast roundHalfEven_nonneg (mul_nonneg h (ten_pow_pos d).le)

theorem quantize_he_eq_of_mul_eq_int (x : ℚ) (d : ℕ) (k : ℤ)
    (h : x * 10 ^ d = (k : ℚ)) : quantize_he x d = (k : ℚ) / 10 ^ d := by
  unfold quantize_he
  rw [h, roundHalfEven_intCast]

theorem quantize_he_zero (d : ℕ) : quantize_he 0 d = 0 := by
  have := quantize_he_eq_of_mul_eq_int 0 d 0 (by norm_num)
  simpa using this

theorem _q_idem (x : ℚ) (d : ℕ) : _q (_q x d) d = _q x d := by
  obtain ⟨k, hk⟩ := _q_exists_int x d
  rw [hk, _q_intCast_div]

theorem foldl_add_map {α : Type} (f : α → ℚ) (l : List α) (a : ℚ) :
    l.foldl (fun acc x => acc + f x) a = a + (l.map f).sum := by
  induction l generalizing a with
  | nil => simp
  | cons x xs ih => simp [ih, add_assoc]

theorem custo_materiais_eq (produto : Produto) :
    custo_materiais produto =
      _q ((produto.componentes.map (fun comp =>
        comp.materia_prima.custo_unitario_base *
          (comp.quantidade_uso * (1 + comp.perda_percentual / 100)))).sum) 4 := by
  unfold custo_materiais
  rw [foldl_add_map, zero_add]

/-- C7: the rounding-increment step is idempotent: re-applying arredondar to
one of its own outputs (same increment) returns that output unchanged. -/
theorem arredondar_idempotent (valor passo : ℚ) :
    _arredondar (_arredondar valor passo) passo = _arredondar valor passo := by
  by_cases hp : passo ≤ 0
  · simp only [_arredondar, if_pos hp]
    exact _q_idem valor 2
  · simp only [_arredondar, if_neg hp]
    have hlt : 0 < passo := lt_of_not_le hp
    set m := roundHalfUp (valor / passo) with hm
    set r := _q ((m : ℚ) * passo) with hr
    set n := roundHalfUp (r / passo) with hn
    have hd : |r - (m : ℚ) * passo| ≤ 1 / 200 := by
      have h := abs_q_sub_le ((m : ℚ) * passo) 2
      rw [← hr] at h
      norm_num at h
      exact h
    have habs : |(n : ℚ) - r / passo| ≤ 1 / 2 := abs_roundHalfUp_sub_le (r / passo)
    have hnp : |(n : ℚ) * passo - r| ≤ passo / 2 := by
      have hrw : (n : ℚ) * passo - r = ((n : ℚ) - r / passo) * passo := by
        field_simp
      rw [hrw, abs_mul, abs_of_pos hlt]
      calc |(n : ℚ) - r / passo| * passo ≤ (1 / 2) * passo :=
            mul_le_mul_of_nonneg_right habs hlt.le
        _ = passo / 2 := by ring
    rcases lt_or_le passo (1 / 100) with hps | hps
    · obtain ⟨k, hk⟩ := _q_exists_int ((m : ℚ) * passo) 2
      rw [← hr] at hk
      have hlt2 : |(n : ℚ) * passo - r| < 1 / 200 := lt_of_le_of_lt hnp (by linarith)
      rw [hk]
      apply _q_eq_of_abs_lt
      rw [← hk]
      norm_num
      exact hlt2
    · rcases eq_or_lt_of_le hps with heq | hgt
      · have hpv : passo = 1 / 100 := heq.symm
        subst hpv
        have hr100 : r = (m : ℚ) / 10 ^ 2 := by
          rw [hr]
          exact _q_eq_of_mul_eq_int _ 2 m (by ring)
        have hdiv : r / (1 / 100) = (m : ℚ) := by
          rw [hr100]
          ring
        have hnm : n = m := by
          rw [hn, hdiv, roundHalfUp_intCast]
        rw [hnm, ← hr]
      · have hnm : n = m := by
          rw [hn]
          apply roundHalfUp_eq_of_abs_lt
          have h1 : r / passo - (m : ℚ) = (r - (m : ℚ) * passo) / passo := by
            field_simp
            ring
          rw [h1, abs_div, abs_of_pos hlt]
          calc |r - (m : ℚ) * passo| / passo ≤ (1 / 200) / passo :=
                div_le_div_of_nonneg_right hd hlt.le
            _ < 1 / 2 := by
                rw [div_lt_iff₀ hlt]
                linarith
        rw [hnm, ← hr]

/-- C2 counterexample: the claim fails twice.  A negative conversion
denominator (units differ, factor -1) is not zeroed: the cost per base unit is
-5, not 0.  And the quantization is not half-up: 1.00 purchased as 32 equal
units costs exactly 0.03125 per unit, which the code (default context
rounding, half-even) returns as 0.0312 while the claimed half-up rounding
gives 0.0313. -/
theorem custo_unitario_base_claim_counterexample :
    (mpNeg.quantidade_compra * mpNeg.fator_conversao_para_base < 0 ∧
      mpNeg.custo_unitario_base = -5 ∧ mpNeg.custo_unitario_base ≠ 0) ∧
    (mpHalf.unidade_compra = mpHalf.unidade_base ∧
      mpHalf.custo_unitario_base = 312 / 10000 ∧
      _q (mpHalf.custo_compra / mpHalf.quantidade_compra) 4 = 313 / 10000) := by
  have hval : mpNeg.custo_unitario_base = -5 := by
    have hne : Unidade.UN ≠ Unidade.FOLHA := by decide
    unfold MateriaPrima.custo_unitario_base mpNeg
    norm_num [quantize_he, roundHalfEven, hne]
  have hhalf : mpHalf.custo_unitario_base = 312 / 10000 := by
    unfold MateriaPrima.custo_unitario_base mpHalf
    norm_num [quantize_he, roundHalfEven]
  refine ⟨⟨by norm_num [mpNeg], hval, by rw [hval]; norm_num⟩,
    rfl, hhalf, ?_⟩
  norm_num [_q, roundHalfUp, mpHalf]

/-- C2 amended: the cost per base unit divides the purchase cost by the
purchase quantity when the units coincide (no factor) and by quantity times
conversion factor when they differ, quantized to 4 decimals with the default
half-even (banker's) rounding rather than half-up; only an exactly zero
denominator short-circuits to zero (no exception is raised, the function is
total); a negative denominator is divided by like any other. -/
theorem custo_unitario_base_spec (mp : MateriaPrima) :
    mp.custo_unitario_base =
      if mp.unidade_compra = mp.unidade_base then
        (if mp.quantidade_compra = 0 then 0
         else quantize_he (mp.custo_compra / mp.quantidade_compra) 4)
      else
        (if mp.quantidade_compra * mp.fator_conversao_para_base = 0 then 0
         else quantize_he (mp.custo_compra /
           (mp.quantidade_compra * mp.fator_conversao_para_base)) 4) := by
  unfold MateriaPrima.custo_unitario_base
  by_cases h : mp.unidade_compra = mp.unidade_base
  · simp [h]
  · simp [h]

/-- C3: the materials cost is the 4-decimal half-up quantization of the sum,
over the product's components, of cost-per-base-unit times the declared
quantity inflated by the component wastage percent; an empty component list
yields zero. -/
theorem custo_materiais_spec (produto : Produto) :
    custo_materiais produto =
      _q ((produto.componentes.map (fun comp =>
        comp.materia_prima.custo_unitario_base *
          (comp.quantidade_uso * (1 + comp.perda_percentual / 100)))).sum) 4 ∧
    custo_materiais { produto with componentes := [] } = 0 := by
  refine ⟨custo_materiais_eq produto, ?_⟩
  unfold custo_materiais
  simp [_q_zero]

/-- C4: the labor cost of a product is the blended per-minute rate times the
production time, where the blended rate divides the desired monthly income and
the monthly fixed costs by the monthly hours (working days times hours per
day, with zero replaced by 1) and then by 60, every intermediate and the final
cost quantized to 4 decimals: the TabelaHora intermediates with the default
half-even rounding, the final cost with pricing.py's explicit half-up. -/
theorem custo_mao_de_obra_spec (produto : Produto) (parametros : ParametrosGlobais)
    (tabela : TabelaHora) :
    custo_mao_de_obra produto parametros tabela =
      (let hm := quantize_he ((tabela.dias_trabalho_mes : ℚ) * tabela.horas_por_dia) 4
       let hm1 := if hm = 0 then 1 else hm
       _q (quantize_he (quantize_he (quantize_he (tabela.renda_mensal_desejada / hm1) 4 +
         quantize_he ((parametros.custo_energia_mensal + parametros.custo_internet_mensal +
           parametros.outros_custos_fixos_mensais) / hm1) 4) 4 / 60) 4 *
         (produto.tempo_producao_minutos : ℚ)) 4) := rfl

theorem preco_sugerido_materiais (produto : Produto) (parametros : ParametrosGlobais)
    (tabela : TabelaHora) :
    (preco_sugerido produto parametros tabela).materiais =
      _q (custo_materiais produto) := rfl

theorem preco_sugerido_mao_de_obra (produto : Produto) (parametros : ParametrosGlobais)
    (tabela : TabelaHora) :
    (preco_sugerido produto parametros tabela).mao_de_obra =
      _q (custo_mao_de_obra produto parametros tabela) := rfl

theorem preco_sugerido_tinta (produto : Produto) (parametros : ParametrosGlobais)
    (tabela : TabelaHora) :
    (preco_sugerido produto parametros tabela).tinta =
      _q (custo_tinta_percentual produto parametros) := rfl

theorem preco_sugerido_custo_total (produto : Produto) (parametros : ParametrosGlobais)
    (tabela : TabelaHora) :
    (preco_sugerido produto parametros tabela).custo_total =
      _q (custo_total_de produto parametros tabela) := rfl

theorem preco_sugerido_margem (produto : Produto) (parametros : ParametrosGlobais)
    (tabela : TabelaHora) :
    (preco_sugerido produto parametros tabela).margem_percentual =
      _q (margem_de produto parametros) := rfl

theorem preco_sugerido_preco_sem_taxas (produto : Produto) (parametros : ParametrosGlobais)
    (tabela : TabelaHora) :
    (preco_sugerido produto parametros tabela).preco_sem_taxas =
      _q (preco_sem_taxas_de produto parametros tabela) := rfl

theorem preco_sugerido_impostos (produto : Produto) (parametros : ParametrosGlobais)
    (tabela : TabelaHora) :
    (preco_sugerido produto parametros tabela).impostos =
      _q (_q (preco_sem_taxas_de produto parametros tabela *
        (parametros.impostos_percentual_sobre_venda / 100)) 4) := rfl

theorem preco_sugerido_taxa_cartao (produto : Produto) (parametros : ParametrosGlobais)
    (tabela : TabelaHora) :
    (preco_sugerido produto parametros tabela).taxa_cartao =
      _q (_q (com_impostos_de produto parametros tabela *
        (parametros.taxa_cartao_percentual / 100)) 4) := rfl

theorem preco_sugerido_acrescimo (produto : Produto) (parametros : ParametrosGlobais)
    (tabela : TabelaHora) :
    (preco_sugerido produto parametros tabela).acrescimo_padrao =
      _q (_q (com_taxas_de produto parametros tabela *
        (parametros.acrescimo_padrao_percentual / 100)) 4) := rfl

theorem preco_sugerido_preco_final (produto : Produto) (parametros : ParametrosGlobais)
    (tabela : TabelaHora) :
    (preco_sugerido produto parametros tabela).preco_final =
      _q (_arredondar (bruto_de produto parametros tabela)
        parametros.arredondar_para) := rfl

theorem preco_final_eq_cascade (produto : Produto) (parametros : ParametrosGlobais)
    (tabela : TabelaHora) :
    (preco_sugerido produto parametros tabela).preco_final =
      _q (cascadeFinal (custo_total_de produto parametros tabela)
        (margem_de produto parametros)
        parametros.impostos_percentual_sobre_venda
        parametros.taxa_cartao_percentual
        parametros.acrescimo_padrao_percentual
        parametros.arredondar_para) := rfl

/-- C1: the final price of the breakdown is obtained by applying, in order,
margin, sales tax, card fee and standard surcharge, each percentage applied
multiplicatively to the running total of the previous step (never to the base
cost), and then rounding the gross price to the configured increment: divide
by the increment, round half-up to the nearest integer, multiply back and
quantize to 2 decimals, falling back to plain 2-decimal half-up rounding when
the increment is zero or negative (undefined is modelled by the or-zero
coercion of the source). -/
theorem preco_sugerido_cascade_spec (produto : Produto) (parametros : ParametrosGlobais)
    (tabela : TabelaHora) :
    (preco_sugerido produto parametros tabela).preco_final =
      (let custo_total := _q (custo_materiais produto +
         custo_mao_de_obra produto parametros tabela +
         custo_tinta_percentual produto parametros) 4
       let margem := produto.margem_lucro_override.getD parametros.margem_lucro_padrao
       let preco_sem_taxas := _q (custo_total * (1 + margem / 100)) 4
       let com_impostos := _q (preco_sem_taxas +
         _q (preco_sem_taxas * (parametros.impostos_percentual_sobre_venda / 100)) 4) 4
       let com_taxas := _q (com_impostos +
         _q (com_impostos * (parametros.taxa_cartao_percentual / 100)) 4) 4
       let bruto := _q (com_taxas +
         _q (com_taxas * (parametros.acrescimo_padrao_percentual / 100)) 4) 4
       _q (if parametros.arredondar_para ≤ 0 then _q bruto
           else _q ((roundHalfUp (bruto / parametros.arredondar_para) : ℚ) *
             parametros.arredondar_para))) := rfl

/-- C6: the quote total is the sum of the line subtotals (each the 2-decimal
quantization, with the default half-even rounding, of quantity times the
frozen unit price), multiplied by the discount factor and then by the
surcharge factor, quantized to 2 decimals with the same default rounding; in
particular subtotals 50.00 and 30.00 with 10 percent discount and 5 percent
surcharge yield 75.60. -/
theorem orcamento_valor_total_spec :
    (∀ (itens : List ItemOrcamento) (desconto acrescimo : ℚ),
      orcamento_valor_total itens desconto acrescimo =
        quantize_he ((itens.map ItemOrcamento.subtotal).sum *
          (1 - desconto / 100) * (1 + acrescimo / 100)) 2) ∧
    orcamento_valor_total [⟨1, 50⟩, ⟨1, 30⟩] 10 5 = 756 / 10 := by
  constructor
  · intro itens desconto acrescimo
    unfold orcamento_valor_total
    rw [foldl_add_map ItemOrcamento.subtotal itens 0, zero_add]
    by_cases hd : desconto = 0
    · by_cases ha : acrescimo = 0
      · simp [hd, ha]
      · simp [hd, ha]
    · by_cases ha : acrescimo = 0
      · simp [hd, ha]
      · simp [hd, ha]
  · norm_num [orcamento_valor_total, ItemOrcamento.subtotal, quantize_he, roundHalfEven]

theorem custo_unitario_base_setPerdaMP (mp : MateriaPrima) (x : ℚ) :
    (setPerdaMP mp x).custo_unitario_base = mp.custo_unitario_base := rfl

theorem foldl_custo_setPerdaAt (l : List ComponenteProduto) :
    ∀ (i : ℕ) (x a : ℚ),
    (setPerdaAt l i x).foldl
      (fun total comp => total + comp.materia_prima.custo_unitario_base *
        (comp.quantidade_uso * (1 + comp.perda_percentual / 100))) a =
    l.foldl
      (fun total comp => total + comp.materia_prima.custo_unitario_base *
        (comp.quantidade_uso * (1 + comp.perda_percentual / 100))) a := by
  induction l with
  | nil => intro i x a; rfl
  | cons c cs ih =>
    intro i x a
    cases i with
    | zero => rfl
    | succ j =>
      simp only [setPerdaAt, List.foldl_cons]
      exact ih j x _

theorem custo_materiais_setPerda (produto : Produto) (i : ℕ) (x : ℚ) :
    custo_materiais (setPerdaMaterial produto i x) = custo_materiais produto := by
  unfold custo_materiais setPerdaMaterial
  exact congrArg (fun t => _q t 4) (foldl_custo_setPerdaAt produto.componentes i x 0)

/-- C9: the material-level wastage percent is never read by the cost
calculation: changing only a raw material's own perda_percentual (component
wastage and all other fields fixed) leaves custo_materiais and the whole
breakdown of preco_sugerido unchanged. -/
theorem perda_material_never_read (produto : Produto) (parametros : ParametrosGlobais)
    (tabela : TabelaHora) (i : ℕ) (x : ℚ) :
    custo_materiais (setPerdaMaterial produto i x) = custo_materiais produto ∧
    preco_sugerido (setPerdaMaterial produto i x) parametros tabela =
      preco_sugerido produto parametros tabela := by
  refine ⟨custo_materiais_setPerda produto i x, ?_⟩
  unfold preco_sugerido
  rw [custo_materiais_setPerda]
  rfl

/-- C5 counterexample: with zero monthly hours (zero working days) the labor
contribution is not zero: the code divides by 1 instead, so a 10-minute
product at desired monthly income 3000 gets labor cost 500. -/
theorem mao_de_obra_zero_hours_not_zero :
    tabZeroHoras.horas_mes = 0 ∧
    custo_mao_de_obra produto10 par0 tabZeroHoras = 500 ∧
    custo_mao_de_obra produto10 par0 tabZeroHoras ≠ 0 := by
  have h0 : tabZeroHoras.horas_mes = 0 := by
    norm_num [TabelaHora.horas_mes, tabZeroHoras, quantize_he_zero]
  have h500 : custo_mao_de_obra produto10 par0 tabZeroHoras = 500 := by
    norm_num [custo_mao_de_obra, TabelaHora.custo_minuto_total, TabelaHora.custo_hora_total,
      TabelaHora.mao_de_obra_hora, TabelaHora.fixos_hora, TabelaHora.horas_mes,
      produto10, par0, tabZeroHoras, _q, roundHalfUp, quantize_he, roundHalfEven]
  exact ⟨h0, h500, by rw [h500]; norm_num⟩

/-- C5 amended: a labor table with zero monthly hours degrades to dividing by
1, not to a zero contribution: the labor cost entering the pipeline is the
desired monthly income plus the monthly fixed costs, divided by 60 and
multiplied by the production minutes (with the usual 4-decimal quantization at
every step), and the computation is total, so the pipeline is not aborted. -/
theorem mao_de_obra_zero_hours_spec (produto : Produto) (parametros : ParametrosGlobais)
    (tabela : TabelaHora) (h : tabela.horas_mes = 0) :
    custo_mao_de_obra produto parametros tabela =
      _q (quantize_he (quantize_he (quantize_he tabela.renda_mensal_desejada 4 +
        quantize_he (parametros.custo_energia_mensal + parametros.custo_internet_mensal +
          parametros.outros_custos_fixos_mensais) 4) 4 / 60) 4 *
        (produto.tempo_producao_minutos : ℚ)) 4 := by
  unfold custo_mao_de_obra TabelaHora.custo_minuto_total TabelaHora.custo_hora_total
    TabelaHora.mao_de_obra_hora TabelaHora.fixos_hora
  rw [h]
  simp

theorem mao_de_obra_zero_hours_spec_witness :
    tabZeroHoras.horas_mes = 0 ∧
    custo_mao_de_obra produto10 par0 tabZeroHoras =
      _q (quantize_he (quantize_he (quantize_he tabZeroHoras.renda_mensal_desejada 4 +
        quantize_he (par0.custo_energia_mensal + par0.custo_internet_mensal +
          par0.outros_custos_fixos_mensais) 4) 4 / 60) 4 *
        (produto10.tempo_producao_minutos : ℚ)) 4 := by
  have h0 : tabZeroHoras.horas_mes = 0 := by
    norm_num [TabelaHora.horas_mes, tabZeroHoras, quantize_he_zero]
  exact ⟨h0, mao_de_obra_zero_hours_spec produto10 par0 tabZeroHoras h0⟩

theorem step_nonneg {v pct : ℚ} (hv : 0 ≤ v) (hp : 0 ≤ pct) : 0 ≤ step v pct :=
  _q_nonneg 4 (add_nonneg hv (_q_nonneg 4 (mul_nonneg hv (div_nonneg hp (by norm_num)))))

theorem step_mono_left {v w pct : ℚ} (h : v ≤ w) (hp : 0 ≤ pct) :
    step v pct ≤ step w pct :=
  _q_mono 4 (add_le_add h (_q_mono 4
    (mul_le_mul_of_nonneg_right h (div_nonneg hp (by norm_num)))))

theorem step_mono_right {v p1 p2 : ℚ} (hv : 0 ≤ v) (h : p1 ≤ p2) :
    step v p1 ≤ step v p2 :=
  _q_mono 4 (add_le_add le_rfl (_q_mono 4
    (mul_le_mul_of_nonneg_left (by linarith : p1 / 100 ≤ p2 / 100) hv)))

theorem arredondar_mono {v w passo : ℚ} (h : v ≤ w) :
    _arredondar v passo ≤ _arredondar w passo := by
  by_cases hp : passo ≤ 0
  · simp only [_arredondar, if_pos hp]
    exact _q_mono 2 h
  · simp only [_arredondar, if_neg hp]
    have hlt : 0 < passo := lt_of_not_le hp
    refine _q_mono 2 (mul_le_mul_of_nonneg_right ?_ hlt.le)
    exact_mod_cast roundHalfUp_mono (div_le_div_of_nonneg_right h hlt.le)

theorem arredondar_nonneg {v passo : ℚ} (hv : 0 ≤ v) : 0 ≤ _arredondar v passo := by
  by_cases hp : passo ≤ 0
  · simp only [_arredondar, if_pos hp]
    exact _q_nonneg 2 hv
  · simp only [_arredondar, if_neg hp]
    have hlt : 0 < passo := lt_of_not_le hp
    refine _q_nonneg 2 (mul_nonneg ?_ hlt.le)
    exact_mod_cast roundHalfUp_nonneg (div_nonneg hv hlt.le)

theorem cascadeFinal_mono_margem {ct m1 m2 i c a passo : ℚ} (hct : 0 ≤ ct)
    (hi : 0 ≤ i) (hc : 0 ≤ c) (ha : 0 ≤ a) (hm : m1 ≤ m2) :
    cascadeFinal ct m1 i c a passo ≤ cascadeFinal ct m2 i c a passo :=
  arredondar_mono (step_mono_left (step_mono_left (step_mono_left
    (_q_mono 4 (mul_le_mul_of_nonneg_left
      (by linarith : 1 + m1 / 100 ≤ 1 + m2 / 100) hct)) hi) hc) ha)

theorem cascadeFinal_mono_impostos {ct m i1 i2 c a passo : ℚ} (hct : 0 ≤ ct)
    (hm : 0 ≤ m) (hc : 0 ≤ c) (ha : 0 ≤ a) (hi : i1 ≤ i2) :
    cascadeFinal ct m i1 c a passo ≤ cascadeFinal ct m i2 c a passo :=
  have hpst : 0 ≤ _q (ct * (1 + m / 100)) 4 :=
    _q_nonneg 4 (mul_nonneg hct (by
      have : 0 ≤ m / 100 := div_nonneg hm (by norm_num)
      linarith))
  arredondar_mono (step_mono_left (step_mono_left (step_mono_right hpst hi) hc) ha)

theorem cascadeFinal_mono_cartao {ct m i c1 c2 a passo : ℚ} (hct : 0 ≤ ct)
    (hm : 0 ≤ m) (hi : 0 ≤ i) (ha : 0 ≤ a) (hc : c1 ≤ c2) :
    cascadeFinal ct m i c1 a passo ≤ cascadeFinal ct m i c2 a passo :=
  have hpst : 0 ≤ _q (ct * (1 + m / 100)) 4 :=
    _q_nonneg 4 (mul_nonneg hct (by
      have : 0 ≤ m / 100 := div_nonneg hm (by norm_num)
      linarith))
  arredondar_mono (step_mono_left (step_mono_right (step_nonneg hpst hi) hc) ha)

theorem cascadeFinal_mono_acrescimo {ct m i c a1 a2 passo : ℚ} (hct : 0 ≤ ct)
    (hm : 0 ≤ m) (hi : 0 ≤ i) (hc : 0 ≤ c) (ha : a1 ≤ a2) :
    cascadeFinal ct m i c a1 passo ≤ cascadeFinal ct m i c a2 passo :=
  have hpst : 0 ≤ _q (ct * (1 + m / 100)) 4 :=
    _q_nonneg 4 (mul_nonneg hct (by
      have : 0 ≤ m / 100 := div_nonneg hm (by norm_num)
      linarith))
  arredondar_mono (step_mono_right (step_nonneg (step_nonneg hpst hi) hc) ha)

/-- C8: holding the cost basis (and every other parameter) fixed and keeping
all percentages in the nonnegative domain the spec admits into the pipeline,
raising any one of the margin, sales-tax, card-fee or standard-surcharge
percentages weakly increases the final price of the breakdown. -/
theorem preco_final_monotone :
    (∀ (produto : Produto) (parametros : ParametrosGlobais) (tabela : TabelaHora) (m : ℚ),
      produto.margem_lucro_override = none →
      0 ≤ custo_total_de produto parametros tabela →
      0 ≤ parametros.impostos_percentual_sobre_venda →
      0 ≤ parametros.taxa_cartao_percentual →
      0 ≤ parametros.acrescimo_padrao_percentual →
      parametros.margem_lucro_padrao ≤ m →
      (preco_sugerido produto parametros tabela).preco_final ≤
        (preco_sugerido produto { parametros with margem_lucro_padrao := m }
          tabela).preco_final) ∧
    (∀ (produto : Produto) (parametros : ParametrosGlobais) (tabela : TabelaHora) (i : ℚ),
      0 ≤ custo_total_de produto parametros tabela →
      0 ≤ margem_de produto parametros →
      0 ≤ parametros.taxa_cartao_percentual →
      0 ≤ parametros.acrescimo_padrao_percentual →
      parametros.impostos_percentual_sobre_venda ≤ i →
      (preco_sugerido produto parametros tabela).preco_final ≤
        (preco_sugerido produto { parametros with impostos_percentual_sobre_venda := i }
          tabela).preco_final) ∧
    (∀ (produto : Produto) (parametros : ParametrosGlobais) (tabela : TabelaHora) (c : ℚ),
      0 ≤ custo_total_de produto parametros tabela →
      0 ≤ margem_de produto parametros →
      0 ≤ parametros.impostos_percentual_sobre_venda →
      0 ≤ parametros.acrescimo_padrao_percentual →
      parametros.taxa_cartao_percentual ≤ c →
      (preco_sugerido produto parametros tabela).preco_final ≤
        (preco_sugerido produto { parametros with taxa_cartao_percentual := c }
          tabela).preco_final) ∧
    (∀ (produto : Produto) (parametros : ParametrosGlobais) (tabela : TabelaHora) (a : ℚ),
      0 ≤ custo_total_de produto parametros tabela →
      0 ≤ margem_de produto parametros →
      0 ≤ parametros.impostos_percentual_sobre_venda →
      0 ≤ parametros.taxa_cartao_percentual →
      parametros.acrescimo_padrao_percentual ≤ a →
      (preco_sugerido produto parametros tabela).preco_final ≤
        (preco_sugerido produto { parametros with acrescimo_padrao_percentual := a }
          tabela).preco_final) := by
  refine ⟨?_, ?_, ?_, ?_⟩
  · intro produto parametros tabela m hnone hct hi hc ha hm
    rw [preco_final_eq_cascade, preco_final_eq_cascade]
    apply _q_mono 2
    have hmm : margem_de produto parametros = parametros.margem_lucro_padrao := by
      unfold margem_de
      rw [hnone]
      rfl
    have hmm2 : margem_de produto { parametros with margem_lucro_padrao := m } = m := by
      unfold margem_de
      rw [hnone]
      rfl
    rw [hmm, hmm2]
    exact cascadeFinal_mono_margem hct hi hc ha hm
  · intro produto parametros tabela i hct hm hc ha hi
    rw [preco_final_eq_cascade, preco_final_eq_cascade]
    exact _q_mono 2 (cascadeFinal_mono_impostos hct hm hc ha hi)
  · intro produto parametros tabela c hct hm hi ha hc
    rw [preco_final_eq_cascade, preco_final_eq_cascade]
    exact _q_mono 2 (cascadeFinal_mono_cartao hct hm hi ha hc)
  · intro produto parametros tabela a hct hm hi hc ha
    rw [preco_final_eq_cascade, preco_final_eq_cascade]
    exact _q_mono 2 (cascadeFinal_mono_acrescimo hct hm hi hc ha)

theorem preco_final_monotone_witness :
    ((preco_sugerido produto0 par0 tab0).preco_final ≤
      (preco_sugerido produto0 { par0 with margem_lucro_padrao := 40 } tab0).preco_final) ∧
    ((preco_sugerido produto0 par0 tab0).preco_final ≤
      (preco_sugerido produto0
        { par0 with impostos_percentual_sobre_venda := 7 } tab0).preco_final) ∧
    ((preco_sugerido produto0 par0 tab0).preco_final ≤
      (preco_sugerido produto0
        { par0 with taxa_cartao_percentual := 3 } tab0).preco_final) ∧
    ((preco_sugerido produto0 par0 tab0).preco_final ≤
      (preco_sugerido produto0
        { par0 with acrescimo_padrao_percentual := 2 } tab0).preco_final) := by
  have hct : 0 ≤ custo_total_de produto0 par0 tab0 := by
    norm_num [custo_total_de, custo_materiais, custo_mao_de_obra, custo_tinta_percentual,
      TabelaHora.custo_minuto_total, TabelaHora.custo_hora_total, TabelaHora.mao_de_obra_hora,
      TabelaHora.fixos_hora, TabelaHora.horas_mes, produto0, par0, tab0, _q, roundHalfUp,
      quantize_he, roundHalfEven]
  have hmarg : 0 ≤ margem_de produto0 par0 := by
    norm_num [margem_de, produto0, par0]
  refine ⟨preco_final_monotone.1 produto0 par0 tab0 40 rfl hct ?_ ?_ ?_ ?_,
    preco_final_monotone.2.1 produto0 par0 tab0 7 hct hmarg ?_ ?_ ?_,
    preco_final_monotone.2.2.1 produto0 par0 tab0 3 hct hmarg ?_ ?_ ?_,
    preco_final_monotone.2.2.2 produto0 par0 tab0 2 hct hmarg ?_ ?_ ?_⟩ <;>
  norm_num [par0]

theorem custo_unitario_base_cases (mp : MateriaPrima) :
    mp.custo_unitario_base =
      if (if mp.unidade_compra ≠ mp.unidade_base then
            mp.quantidade_compra * mp.fator_conversao_para_base
          else mp.quantidade_compra) = 0 then 0
      else quantize_he (mp.custo_compra /
        (if mp.unidade_compra ≠ mp.unidade_base then
          mp.quantidade_compra * mp.fator_conversao_para_base
         else mp.quantidade_compra)) 4 := rfl

theorem custo_unitario_base_nonneg {mp : MateriaPrima} (h : mp.Nonneg) :
    0 ≤ mp.custo_unitario_base := by
  obtain ⟨hq, hc, hf, _⟩ := h
  rw [custo_unitario_base_cases]
  have hqn : 0 ≤ (if mp.unidade_compra ≠ mp.unidade_base then
      mp.quantidade_compra * mp.fator_conversao_para_base else mp.quantidade_compra) := by
    split
    · exact mul_nonneg hq hf
    · exact hq
  by_cases h0 : (if mp.unidade_compra ≠ mp.unidade_base then
      mp.quantidade_compra * mp.fator_conversao_para_base else mp.quantidade_compra) = 0
  · rw [if_pos h0]
  · rw [if_neg h0]
    exact quantize_he_nonneg 4 (div_nonneg hc hqn)

theorem custo_materiais_nonneg {produto : Produto}
    (h : ∀ c ∈ produto.componentes, c.Nonneg) : 0 ≤ custo_materiais produto := by
  rw [custo_materiais_eq]
  apply _q_nonneg 4
  apply List.sum_nonneg
  intro y hy
  obtain ⟨c, hcmem, rfl⟩ := List.mem_map.mp hy
  obtain ⟨hmp, hqty, hperda⟩ := h c hcmem
  have h1 : (0 : ℚ) ≤ 1 + c.perda_percentual / 100 := by
    have : 0 ≤ c.perda_percentual / 100 := div_nonneg hperda (by norm_num)
    linarith
  exact mul_nonneg (custo_unitario_base_nonneg hmp) (mul_nonneg hqty h1)

theorem horas_mes_nonneg {t : TabelaHora} (h : t.Nonneg) : 0 ≤ t.horas_mes :=
  quantize_he_nonneg 4 (mul_nonneg (Nat.cast_nonneg _) h.2)

theorem hm_guard_nonneg {t : TabelaHora} (h : t.Nonneg) :
    0 ≤ (if t.horas_mes = 0 then 1 else t.horas_mes) := by
  split
  · norm_num
  · exact horas_mes_nonneg h

theorem mao_de_obra_hora_nonneg {t : TabelaHora} {p : ParametrosGlobais}
    (h : t.Nonneg) : 0 ≤ t.mao_de_obra_hora p :=
  quantize_he_nonneg 4 (div_nonneg h.1 (hm_guard_nonneg h))

theorem fixos_hora_nonneg {t : TabelaHora} {p : ParametrosGlobais}
    (ht : t.Nonneg) (hp : p.Nonneg) : 0 ≤ t.fixos_hora p := by
  obtain ⟨_, _, _, _, _, he, hin, hou, _⟩ := hp
  exact quantize_he_nonneg 4
    (div_nonneg (add_nonneg (add_nonneg he hin) hou) (hm_guard_nonneg ht))

theorem custo_hora_total_nonneg {t : TabelaHora} {p : ParametrosGlobais}
    (ht : t.Nonneg) (hp : p.Nonneg) : 0 ≤ t.custo_hora_total p :=
  quantize_he_nonneg 4 (add_nonneg (mao_de_obra_hora_nonneg ht) (fixos_hora_nonneg ht hp))

theorem custo_minuto_total_nonneg {t : TabelaHora} {p : ParametrosGlobais}
    (ht : t.Nonneg) (hp : p.Nonneg) : 0 ≤ t.custo_minuto_total p :=
  quantize_he_nonneg 4 (div_nonneg (custo_hora_total_nonneg ht hp) (by norm_num))

theorem custo_mao_de_obra_nonneg {produto : Produto} {p : ParametrosGlobais}
    {t : TabelaHora} (hp : p.Nonneg) (ht : t.Nonneg) :
    0 ≤ custo_mao_de_obra produto p t :=
  _q_nonneg 4 (mul_nonneg (custo_minuto_total_nonneg ht hp) (Nat.cast_nonneg _))

theorem custo_tinta_nonneg {produto : Produto} {p : ParametrosGlobais}
    (hprod : produto.Nonneg) (hp : p.Nonneg) :
    0 ≤ custo_tinta_percentual produto p := by
  unfold custo_tinta_percentual
  split
  · exact le_refl 0
  · obtain ⟨_, htinta, _⟩ := hprod
    obtain ⟨_, _, _, _, _, _, _, _, hpt⟩ := hp
    exact _q_nonneg 4 (mul_nonneg (div_nonneg htinta (by norm_num)) hpt)

theorem custo_total_de_nonneg {produto : Produto} {p : ParametrosGlobais}
    {t : TabelaHora} (hprod : produto.Nonneg) (hp : p.Nonneg) (ht : t.Nonneg) :
    0 ≤ custo_total_de produto p t :=
  _q_nonneg 4 (add_nonneg (add_nonneg (custo_materiais_nonneg hprod.1)
    (custo_mao_de_obra_nonneg hp ht)) (custo_tinta_nonneg hprod hp))

theorem margem_de_nonneg {produto : Produto} {p : ParametrosGlobais}
    (hprod : produto.Nonneg) (hp : p.Nonneg) : 0 ≤ margem_de produto p := by
  unfold margem_de
  cases hov : produto.margem_lucro_override with
  | none => exact hp.1
  | some m => exact hprod.2.2 m hov

theorem preco_sem_taxas_de_nonneg {produto : Produto} {p : ParametrosGlobais}
    {t : TabelaHora} (hprod : produto.Nonneg) (hp : p.Nonneg) (ht : t.Nonneg) :
    0 ≤ preco_sem_taxas_de produto p t := by
  have hm := margem_de_nonneg hprod hp
  have : 0 ≤ margem_de produto p / 100 := div_nonneg hm (by norm_num)
  exact _q_nonneg 4 (mul_nonneg (custo_total_de_nonneg hprod hp ht) (by linarith))

theorem com_impostos_de_nonneg {produto : Produto} {p : ParametrosGlobais}
    {t : TabelaHora} (hprod : produto.Nonneg) (hp : p.Nonneg) (ht : t.Nonneg) :
    0 ≤ com_impostos_de produto p t :=
  step_nonneg (preco_sem_taxas_de_nonneg hprod hp ht) hp.2.2.2.1

theorem com_taxas_de_nonneg {produto : Produto} {p : ParametrosGlobais}
    {t : TabelaHora} (hprod : produto.Nonneg) (hp : p.Nonneg) (ht : t.Nonneg) :
    0 ≤ com_taxas_de produto p t :=
  step_nonneg (com_impostos_de_nonneg hprod hp ht) hp.2.2.2.2.1

theorem bruto_de_nonneg {produto : Produto} {p : ParametrosGlobais}
    {t : TabelaHora} (hprod : produto.Nonneg) (hp : p.Nonneg) (ht : t.Nonneg) :
    0 ≤ bruto_de produto p t :=
  step_nonneg (com_taxas_de_nonneg hprod hp ht) hp.2.1

/-- C10: when every quantity, cost, production time and percentage of the
product, its materials, the parameter set and the labor table is nonnegative,
every field of the breakdown returned by preco_sugerido is nonnegative. -/
theorem breakdown_nonneg (produto : Produto) (parametros : ParametrosGlobais)
    (tabela : TabelaHora) (hprod : produto.Nonneg) (hpar : parametros.Nonneg)
    (htab : tabela.Nonneg) :
    0 ≤ (preco_sugerido produto parametros tabela).materiais ∧
    0 ≤ (preco_sugerido produto parametros tabela).mao_de_obra ∧
    0 ≤ (preco_sugerido produto parametros tabela).tinta ∧
    0 ≤ (preco_sugerido produto parametros tabela).custo_total ∧
    0 ≤ (preco_sugerido produto parametros tabela).margem_percentual ∧
    0 ≤ (preco_sugerido produto parametros tabela).preco_sem_taxas ∧
    0 ≤ (preco_sugerido produto parametros tabela).impostos ∧
    0 ≤ (preco_sugerido produto parametros tabela).taxa_cartao ∧
    0 ≤ (preco_sugerido produto parametros tabela).acrescimo_padrao ∧
    0 ≤ (preco_sugerido produto parametros tabela).preco_final := by
  refine ⟨?_, ?_, ?_, ?_, ?_, ?_, ?_, ?_, ?_, ?_⟩
  · rw [preco_sugerido_materiais]
    exact _q_nonneg 2 (custo_materiais_nonneg hprod.1)
  · rw [preco_sugerido_mao_de_obra]
    exact _q_nonneg 2 (custo_mao_de_obra_nonneg hpar htab)
  · rw [preco_sugerido_tinta]
    exact _q_nonneg 2 (custo_tinta_nonneg hprod hpar)
  · rw [preco_sugerido_custo_total]
    exact _q_nonneg 2 (custo_total_de_nonneg hprod hpar htab)
  · rw [preco_sugerido_margem]
    exact _q_nonneg 2 (margem_de_nonneg hprod hpar)
  · rw [preco_sugerido_preco_sem_taxas]
    exact _q_nonneg 2 (preco_sem_taxas_de_nonneg hprod hpar htab)
  · rw [preco_sugerido_impostos]
    exact _q_nonneg 2 (_q_nonneg 4 (mul_nonneg (preco_sem_taxas_de_nonneg hprod hpar htab)
      (div_nonneg hpar.2.2.2.1 (by norm_num))))
  · rw [preco_sugerido_taxa_cartao]
    exact _q_nonneg 2 (_q_nonneg 4 (mul_nonneg (com_impostos_de_nonneg hprod hpar htab)
      (div_nonneg hpar.2.2.2.2.1 (by norm_num))))
  · rw [preco_sugerido_acrescimo]
    exact _q_nonneg 2 (_q_nonneg 4 (mul_nonneg (com_taxas_de_nonneg hprod hpar htab)
      (div_nonneg hpar.2.1 (by norm_num))))
  · rw [preco_sugerido_preco_final]
    exact _q_nonneg 2 (arredondar_nonneg (bruto_de_nonneg hprod hpar htab))

theorem breakdown_nonneg_witness :
    0 ≤ (preco_sugerido produto0 par0 tab0).materiais ∧
    0 ≤ (preco_sugerido produto0 par0 tab0).mao_de_obra ∧
    0 ≤ (preco_sugerido produto0 par0 tab0).tinta ∧
    0 ≤ (preco_sugerido produto0 par0 tab0).custo_total ∧
    0 ≤ (preco_sugerido produto0 par0 tab0).margem_percentual ∧
    0 ≤ (preco_sugerido produto0 par0 tab0).preco_sem_taxas ∧
    0 ≤ (preco_sugerido produto0 par0 tab0).impostos ∧
    0 ≤ (preco_sugerido produto0 par0 tab0).taxa_cartao ∧
    0 ≤ (preco_sugerido produto0 par0 tab0).acrescimo_padrao ∧
    0 ≤ (preco_sugerido produto0 par0 tab0).preco_final :=
  breakdown_nonneg produto0 par0 tab0
    (by simp [Produto.Nonneg, produto0])
    (by norm_num [ParametrosGlobais.Nonneg, par0])
    (by norm_num [TabelaHora.Nonneg, tab0])

end Precificacao
